import Mathlib

/-!
Formal model of the caching and protocol-translation layer of
`flask-mtango` (`src/mtango.py`), as a shallow embedding.

Conventions of the embedding:
* Python's `time.time()` clock is an explicit `Nat` parameter `now`
  threaded through every stateful operation.
* Machine-level remote calls (PyTango `DeviceProxy` methods, the TANGO
  database) are abstract parameters: a record of state-passing functions
  that may fail (`Except`).  Python exceptions are `Except.error`.
* Python's `str` on a nonnegative integer is `pyStr`, Python's `int` on a
  string is `pyInt?` (returning `none` where Python raises `ValueError`;
  `pyInt?` accepts exactly the canonical digit strings, which covers every
  count string the encoder emits).  Python list indexing `data[i]` is
  `List.getElem?` (`none` where Python raises `IndexError`), and the
  slice `data[a:b]` (with `0 ≤ a ≤ b`) is `pySlice`, which silently
  truncates at the end of the list exactly as Python slices do.
-/

/-- Decimal digits of `n`, least-significant first, with explicit fuel
(`natDigitsRev n n` is the digit list of `n`; empty for `n = 0`). -/
def natDigitsRev : Nat → Nat → List Nat
  | 0, _ => []
  | _ + 1, 0 => []
  | fuel + 1, n + 1 => ((n + 1) % 10) :: natDigitsRev fuel ((n + 1) / 10)

/-- Value of a least-significant-first digit list. -/
def ofDigitsRev : List Nat → Nat
  | [] => 0
  | d :: ds => d + 10 * ofDigitsRev ds

/-- Model of Python `str` on a nonnegative integer. -/
def pyStr (n : Nat) : String :=
  if n = 0 then "0"
  else ⟨((natDigitsRev n n).map fun d => Char.ofNat (48 + d)).reverse⟩

/-- Decimal digit test on a character (codepoints of '0'..'9'). -/
def isDigitChar (c : Char) : Bool := 48 ≤ c.toNat && c.toNat ≤ 57

/-- Model of Python `int` on a string: `none` where Python raises
`ValueError`.  (Python additionally tolerates signs and surrounding
whitespace; on the canonical digit strings produced by `pyStr` the two
agree exactly.) -/
def pyInt? (s : String) : Option Nat :=
  if !s.data.isEmpty && s.data.all isDigitChar then
    some (s.data.foldl (fun a c => a * 10 + (c.toNat - 48)) 0)
  else none

/-- Model of the Python slice `l[a:b]` for `0 ≤ a`, `0 ≤ b`: clamps
silently at the end of the list, never failing. -/
def pySlice (l : List α) (a b : Nat) : List α := (l.drop a).take (b - a)

/-!
TTL Result Cache (`src/mtango.py` lines 39-52, class `CachedMethod`).

The backing store is the external `ttldict.TTLDict` dependency, modelled
at its interface: a mapping from keys to (value, insertion time) whose
entries are alive only while `now - insertion_time < ttl` (the spec's
"A Cache Entry is returned to callers only while now - insertion_time <
ttl").  Overwriting a key is modelled by consing the new binding in
front, which shadows any stale binding under first-match `List.lookup`.
-/

/-- Model of a `ttldict.TTLDict` with a fixed `default_ttl`: an
association list of (key, value, insertion time). -/
structure TTLDict (κ ν : Type) where
  default_ttl : Nat
  entries : List (κ × ν × Nat)

/-- Live lookup at time `now`: the Python `args in self.cache` check
followed by `self.cache[args]` (both consult expiry; at one instant they
amount to a single live lookup). -/
def TTLDict.get? [BEq κ] (d : TTLDict κ ν) (now : Nat) (k : κ) : Option ν :=
  match d.entries.lookup k with
  | some (v, t) => if now < t + d.default_ttl then some v else none
  | none => none

/-- Assignment `self.cache[args] = value` at time `now`. -/
def TTLDict.set (d : TTLDict κ ν) (now : Nat) (k : κ) (v : ν) : TTLDict κ ν :=
  { d with entries := (k, v, now) :: d.entries }

/-- Model of class `CachedMethod`: holds `self.cache`, a `TTLDict` whose
`default_ttl` is the `ttl` given at construction.  The wrapped remote
method is passed explicitly (it may raise: `Except.error`). -/
structure CachedMethod (κ ν ε : Type) where
  cache : TTLDict κ ν

/-- Model of `CachedMethod.__call__`: on a live cache hit return the
cached value without invoking the method; otherwise invoke the method,
and only on success store the result.  The returned `Bool` records
whether the inner method was invoked. -/
def CachedMethod.call [BEq κ] (cm : CachedMethod κ ν ε) (method : κ → Except ε ν)
    (now : Nat) (args : κ) : Except ε ν × CachedMethod κ ν ε × Bool :=
  match cm.cache.get? now args with
  | some v => (.ok v, cm, false)
  | none =>
    match method args with
    | .error e => (.error e, cm, true)
    | .ok value => (.ok value, ⟨cm.cache.set now args value⟩, true)

/-- Sequence of calls through one `CachedMethod` with one argument tuple
at the given times; returns the results, the final state, and the number
of invocations of the inner method. -/
def CachedMethod.runCalls [BEq κ] (cm : CachedMethod κ ν ε) (method : κ → Except ε ν)
    (args : κ) : List Nat → List (Except ε ν) × CachedMethod κ ν ε × Nat
  | [] => ([], cm, 0)
  | t :: ts =>
    let step := cm.call method t args
    let rest := step.2.1.runCalls method args ts
    (step.1 :: rest.1, rest.2.1, (if step.2.2 then 1 else 0) + rest.2.2)

/-!
Cached Directory Facade (`src/mtango.py` lines 55-77, class
`CachedDatabase`): `__getattr__` returns the raw database method for any
name that does not start with `"Get"`, and otherwise a per-name
`CachedMethod` (created lazily with the instance ttl).  Calling a method
through the facade is modelled by `CachedDatabase.call`; the returned
`Bool` records whether the underlying remote database was invoked.
-/

/-- Name predicate of `CachedDatabase.__getattr__`:
`method.startswith("Get")`, modelled on the character sequence. -/
def isGetMethod (method : String) : Bool := "Get".data.isPrefixOf method.data

/-- Model of class `CachedDatabase`: the instance ttl and the `_methods`
table of per-name `CachedMethod`s. -/
structure CachedDatabase (κ ν ε : Type) where
  _ttl : Nat
  _methods : List (String × CachedMethod κ ν ε)

/-- Calling `getattr(db, method)(args)` through the facade: a name not
starting with `"Get"` is forwarded directly to the remote database,
uncached; a `"Get"`-prefixed name goes through its (lazily created)
`CachedMethod`.  The `Bool` records whether the remote database was
invoked. -/
def CachedDatabase.call [BEq κ] (db : CachedDatabase κ ν ε)
    (remote : String → κ → Except ε ν) (now : Nat) (method : String) (args : κ) :
    Except ε ν × CachedDatabase κ ν ε × Bool :=
  if !isGetMethod method then
    (remote method args, db, true)
  else
    let cm := (db._methods.lookup method).getD ⟨⟨db._ttl, []⟩⟩
    let res := cm.call (remote method) now args
    (res.1, { db with _methods := (method, res.2.1) :: db._methods }, res.2.2)

/-- Sequence of facade calls to one method with one argument tuple at the
given times; returns the list of results, the final state, and the total
number of invocations of the underlying remote database. -/
def CachedDatabase.runCalls [BEq κ] (db : CachedDatabase κ ν ε)
    (remote : String → κ → Except ε ν) (method : String) (args : κ) :
    List Nat → List (Except ε ν) × CachedDatabase κ ν ε × Nat
  | [] => ([], db, 0)
  | t :: ts =>
    let step := db.call remote t method args
    let rest := step.2.1.runCalls remote method args ts
    (step.1 :: rest.1, rest.2.1, (if step.2.2 then 1 else 0) + rest.2.2)

/-!
Connection Pool (`src/mtango.py` lines 82-95, `get_device_proxy` over
the module-level `OrderedDict` `device_proxies`).  A Python 2
`OrderedDict` keeps keys in insertion order; `keys()[0]` is the oldest
key and `del` removes it.  The pool is therefore a list of (devname,
proxy) pairs in insertion order, oldest first.
-/

/-- Opaque model of `PyTango.DeviceProxy(devname)`: a handle bound to
one device name. -/
structure DeviceProxy where
  devname : String
deriving DecidableEq

/-- Capacity constant `MAX_PROXIES = 100`. -/
def MAX_PROXIES : Nat := 100

/-- Model of `get_device_proxy`: return a pooled proxy unchanged if the
name is present; otherwise create a proxy, evict the oldest entry iff
the pool is exactly at capacity, and append the new entry. -/
def get_device_proxy (pool : List (String × DeviceProxy)) (devname : String) :
    DeviceProxy × List (String × DeviceProxy) :=
  match pool.lookup devname with
  | some p => (p, pool)
  | none =>
    let proxy : DeviceProxy := ⟨devname⟩
    let pool' := if pool.length = MAX_PROXIES then pool.tail else pool
    (proxy, pool' ++ [(devname, proxy)])

/-- Acquire a sequence of device names through the pool, left to right. -/
def acquireAll (pool : List (String × DeviceProxy)) : List String → List (String × DeviceProxy)
  | [] => pool
  | n :: ns => acquireAll (get_device_proxy pool n).2 ns

/-- Keys of a pool, in insertion order. -/
def poolKeys (pool : List (String × DeviceProxy)) : List String := pool.map Prod.fst

/-!
Property Wire Codec (`src/mtango.py` lines 396-415,
`decode_device_properties` and `encode_device_properties`).

A Python dict of properties is modelled as an association list (its
`items()` order); property values are strings, so the source's `str(v)`
is the identity on them.  `decode_device_properties` walks the flat
array with Python indexing (`IndexError` is `none`), Python `int`
(`ValueError` is `none`) and Python slicing (silent truncation).
-/

/-- A decoded property record: the dict `{"name": ..., "values": ...}`
appended by the decode loop. -/
structure PropRec where
  name : String
  values : List String
deriving DecidableEq, Repr

/-- Body of the `for i in range(n)` loop of `decode_device_properties`,
starting at index `pos` with `n` properties still to read:
`prop = data[pos]`, `length = int(data[pos+1])`,
`value = data[pos+2:pos+2+length]`, advance `pos` by `2 + length`. -/
def decodeLoop (data : List String) : Nat → Nat → Option (List PropRec)
  | 0, _ => some []
  | n + 1, pos =>
    match data[pos]? with
    | none => none
    | some prop =>
      match data[pos + 1]? with
      | none => none
      | some lenStr =>
        match pyInt? lenStr with
        | none => none
        | some length =>
          let value := pySlice data (pos + 2) (pos + 2 + length)
          match decodeLoop data n (pos + 2 + length) with
          | none => none
          | some rest => some ({ name := prop, values := value } :: rest)

/-- Model of `decode_device_properties`: `n = int(data[1])`, then the
loop from `pos = 2`.  A Python exception (`IndexError`, `ValueError`)
is `none`. -/
def decode_device_properties (data : List String) : Option (List PropRec) :=
  match data[1]? with
  | none => none
  | some nStr =>
    match pyInt? nStr with
    | none => none
    | some n => decodeLoop data n 2

/-- Model of `encode_device_properties`: `[device, str(len(data))]`
followed, for each property in dict order, by the name, the value count
and the values themselves. -/
def encode_device_properties (device : String) (data : List (String × List String)) :
    List String :=
  [device, pyStr data.length] ++
    data.flatMap fun pv => [pv.1, pyStr pv.2.length] ++ pv.2

/-!
Error Normalizer (`src/mtango.py` lines 100-116, `stringify_error` and
`make_error_response`) and the Attribute Value Bridge embedded in the
routes `get_device_attribute` (lines 357-391) and
`get_put_device_attributes` (lines 208-262).

The remote device handle is an abstract record of state-passing
functions (`DeviceModel`); each handler model additionally returns the
ordered trace of remote device calls it issued.  In the source the
`try`/`except` of these two routes wraps only `get_device_proxy`; the
acquisition outcome is the `Except`-valued parameter `proxy?`, whose
error (a caught `PyTango.DevFailed`, i.e. an ordered list of error
records) is turned into the error envelope.  Every later exception
(`PyTango.DevFailed` from a device call, `ValueError` from `str_2_obj`,
`KeyError` from `args[attr]`) escapes the handler uncaught and is the
`Except.error` of the result.
-/

/-- One TANGO error record as consumed by `stringify_error`. -/
structure ErrorRecord where
  reason : String
  desc : String
  severity : String
  origin : String
deriving DecidableEq, Repr

/-- Output dict of `stringify_error`. -/
structure StringifiedError where
  reason : String
  description : String
  severity : String
  origin : String
deriving DecidableEq, Repr

/-- Model of `stringify_error` (the `str` on the severity enum is the
identity on its string rendering). -/
def stringify_error (e : ErrorRecord) : StringifiedError :=
  { reason := e.reason, description := e.desc, severity := e.severity, origin := e.origin }

/-- Body of the response built by `make_error_response` (HTTP status
500): the stringified error stack in order, `quality` `"FAILURE"`, and
the capture time. -/
structure ErrorEnvelope where
  errors : List StringifiedError
  quality : String
  timestamp : Nat
deriving DecidableEq, Repr

/-- Model of `make_error_response` at capture time `now`. -/
def make_error_response (e : List ErrorRecord) (now : Nat) : ErrorEnvelope :=
  { errors := e.map stringify_error, quality := "FAILURE", timestamp := now }

/-- Python exceptions that can escape the attribute handlers. -/
inductive PyErr where
  | devFailed (errors : List ErrorRecord)
  | valueError (msg : String)
  | keyError
deriving DecidableEq, Repr

/-- Remote attribute value as it appears in a read result: either a
`PyTango.DevState` member (carrying its symbolic name) or any other
value, kept opaque as its rendering. -/
inductive TangoValue where
  | devstate (name : String)
  | raw (s : String)
deriving DecidableEq, Repr

/-- Opaque model of a `PyTango.CmdArgType` code (`attr_info.data_type`). -/
structure TangoDataType where
  code : Nat
deriving DecidableEq, Repr

/-- Writability class `attr_info.writable` (`PyTango.AttrWriteType`). -/
inductive AttrWriteType where
  | READ
  | READ_WITH_WRITE
  | WRITE
  | READ_WRITE
deriving DecidableEq, Repr

/-- Membership test `attr_info.writable in (PyTango.AttrWriteType.READ_WRITE,
PyTango.AttrWriteType.READ_WITH_WRITE)` shared by both attribute routes. -/
def writable_permits_write_read : AttrWriteType → Bool
  | .READ_WRITE => true
  | .READ_WITH_WRITE => true
  | _ => false

/-- Attribute descriptor subset used by the routes. -/
structure AttrInfo where
  name : String
  data_type : TangoDataType
  writable : AttrWriteType
deriving DecidableEq, Repr

/-- Read result `da` of a device attribute call: name, value, quality
and timestamp (`da.time.totime()`). -/
structure DevAttr where
  name : String
  value : TangoValue
  quality : String
  time : Nat
deriving DecidableEq, Repr

/-- Comparison `attr_info.data_type == PyTango.DevState` on line 233 of
the source: `data_type` is a `CmdArgType` enum value whereas
`PyTango.DevState` is the state class itself, so the Python comparison
is false for every attribute. -/
def data_type_is_DevState_class (_t : TangoDataType) : Bool := false

/-- Rendering of lines 384-387: `str(result.value)` when
`isinstance(result.value, PyTango._PyTango.DevState)`, the raw value
otherwise. -/
def render_attr_value : TangoValue → TangoValue
  | .devstate n => .raw n
  | .raw s => .raw s

/-- One attribute result dict as built by both routes
(`dict(name=..., value=..., quality=str(...), timestamp=..., _links=...)`). -/
structure AttrResult where
  name : String
  value : TangoValue
  quality : String
  timestamp : Nat
deriving DecidableEq, Repr

/-- Trace entry: one remote call on the device handle. -/
inductive RemoteCall where
  | getConfig (attr : String)
  | getConfigList (attrs : List String)
  | writeRead (attr : String) (v : TangoValue)
  | write (attr : String) (v : TangoValue)
  | read (attr : String)
deriving DecidableEq, Repr

/-- Abstract remote device handle: state-passing, possibly-failing
operations (the PyTango `DeviceProxy` methods the attribute routes
use). -/
structure DeviceModel (σ : Type) where
  get_attribute_config : σ → String → Except PyErr (σ × AttrInfo)
  get_attribute_config_list : σ → List String → Except PyErr (σ × List AttrInfo)
  write_read_attribute : σ → String → TangoValue → Except PyErr (σ × DevAttr)
  write_attribute : σ → String → TangoValue → Except PyErr σ
  read_attribute : σ → String → Except PyErr (σ × DevAttr)

/-- Abstract model of `PyTango.utils.str_2_obj`: coercion of the
caller-supplied string into the attribute's declared type; raises
(`Except.error`) on an unconvertible string. -/
def Str2Obj : Type := String → TangoDataType → Except PyErr TangoValue

/-- PUT body of `get_device_attribute` (lines 371-379) after the
empty-value guard: fetch the descriptor, coerce, then either one
combined `write_read_attribute` call (writability permitting) or
`write_attribute` strictly followed by `read_attribute`; the result
dict is built from the read-back `result` only (lines 384-390). -/
def put_attribute_body (dev : DeviceModel σ) (str2obj : Str2Obj) (s : σ)
    (attr_name : String) (str_value : String) :
    List RemoteCall × Except PyErr AttrResult :=
  match dev.get_attribute_config s attr_name with
  | .error e => ([.getConfig attr_name], .error e)
  | .ok (s₁, attr_info) =>
    match str2obj str_value attr_info.data_type with
    | .error e => ([.getConfig attr_name], .error e)
    | .ok value =>
      if writable_permits_write_read attr_info.writable then
        match dev.write_read_attribute s₁ attr_name value with
        | .error e => ([.getConfig attr_name, .writeRead attr_name value], .error e)
        | .ok (_, da) =>
          ([.getConfig attr_name, .writeRead attr_name value],
           .ok { name := da.name, value := render_attr_value da.value,
                 quality := da.quality, timestamp := da.time })
      else
        match dev.write_attribute s₁ attr_name value with
        | .error e => ([.getConfig attr_name, .write attr_name value], .error e)
        | .ok s₂ =>
          match dev.read_attribute s₂ attr_name with
          | .error e =>
            ([.getConfig attr_name, .write attr_name value, .read attr_name], .error e)
          | .ok (_, da) =>
            ([.getConfig attr_name, .write attr_name value, .read attr_name],
             .ok { name := da.name, value := render_attr_value da.value,
                   quality := da.quality, timestamp := da.time })

/-- Response of the single-attribute route: the bare `""` body of the
empty-value guard, an error envelope, or one result dict. -/
inductive AttrResponse where
  | empty
  | envelope (env : ErrorEnvelope)
  | result (r : AttrResult)
deriving DecidableEq, Repr

/-- Model of the route `get_device_attribute` (lines 357-391).
`proxy?` is the outcome of `get_device_proxy` — the only call the
route's `try`/`except PyTango.DevFailed` protects; `value_arg` is
`request.args.get("value")`.  The first component is the ordered trace
of remote device calls. -/
def get_device_attribute_route (dev : DeviceModel σ) (str2obj : Str2Obj)
    (proxy? : Except (List ErrorRecord) σ) (now : Nat) (is_put : Bool)
    (attr_name : String) (value_arg : Option String) :
    List RemoteCall × Except PyErr AttrResponse :=
  match proxy? with
  | .error e => ([], .ok (.envelope (make_error_response e now)))
  | .ok s =>
    if is_put then
      match value_arg with
      | none => ([], .ok .empty)
      | some str_value =>
        if str_value = "" then ([], .ok .empty)
        else
          let body := put_attribute_body dev str2obj s attr_name str_value
          (body.1, body.2.map .result)
    else
      match dev.read_attribute s attr_name with
      | .error e => ([.read attr_name], .error e)
      | .ok (_, da) =>
        ([.read attr_name],
         .ok (.result { name := da.name, value := render_attr_value da.value,
                        quality := da.quality, timestamp := da.time }))

/-- Result dict of one iteration of the PUT loop of
`get_put_device_attributes` (lines 233-242): the value comes from the
read-back `da`, stringified only under the (constantly false)
`data_type == PyTango.DevState` comparison. -/
def mk_put_result (attr : String) (attr_info : AttrInfo) (da : DevAttr) : AttrResult :=
  { name := attr,
    value := if data_type_is_DevState_class attr_info.data_type
             then render_attr_value da.value else da.value,
    quality := da.quality, timestamp := da.time }

/-- PUT loop of `get_put_device_attributes` (lines 220-242): for each
returned descriptor, look up the requested string (`args[attr]`),
coerce it, then one combined `write_read_attribute` call when the
writability class permits, else `write_attribute` strictly followed by
`read_attribute`; each result dict is built from the read-back value. -/
def put_attributes_loop (dev : DeviceModel σ) (str2obj : Str2Obj)
    (args : List (String × String)) (s : σ) :
    List AttrInfo → List RemoteCall × Except PyErr (List AttrResult)
  | [] => ([], .ok [])
  | attr_info :: rest =>
    let attr := attr_info.name
    match args.lookup attr with
    | none => ([], .error .keyError)
    | some str_value =>
      match str2obj str_value attr_info.data_type with
      | .error e => ([], .error e)
      | .ok value =>
        if writable_permits_write_read attr_info.writable then
          match dev.write_read_attribute s attr value with
          | .error e => ([.writeRead attr value], .error e)
          | .ok (s₂, da) =>
            let r := put_attributes_loop dev str2obj args s₂ rest
            (.writeRead attr value :: r.1,
             r.2.map fun results => mk_put_result attr attr_info da :: results)
        else
          match dev.write_attribute s attr value with
          | .error e => ([.write attr value], .error e)
          | .ok s₂ =>
            match dev.read_attribute s₂ attr with
            | .error e => ([.write attr value, .read attr], .error e)
            | .ok (s₃, da) =>
              let r := put_attributes_loop dev str2obj args s₃ rest
              (.write attr value :: .read attr :: r.1,
               r.2.map fun results => mk_put_result attr attr_info da :: results)

/-- Response of the attribute-list route. -/
inductive AttrListResponse where
  | envelope (env : ErrorEnvelope)
  | results (rs : List AttrResult)
deriving DecidableEq, Repr

/-- Model of the PUT direction of the route `get_put_device_attributes`
(lines 208-262): acquisition failure is enveloped; otherwise one
`get_attribute_config` call for all requested names, then the PUT
loop. -/
def get_put_device_attributes_route (dev : DeviceModel σ) (str2obj : Str2Obj)
    (proxy? : Except (List ErrorRecord) σ) (now : Nat)
    (args : List (String × String)) :
    List RemoteCall × Except PyErr AttrListResponse :=
  match proxy? with
  | .error e => ([], .ok (.envelope (make_error_response e now)))
  | .ok s =>
    match dev.get_attribute_config_list s (args.map Prod.fst) with
    | .error e => ([.getConfigList (args.map Prod.fst)], .error e)
    | .ok (s₁, infos) =>
      let r := put_attributes_loop dev str2obj args s₁ infos
      (.getConfigList (args.map Prod.fst) :: r.1, r.2.map .results)

/-!
Concrete fixtures used by closed evaluations of the models.
-/

/-- Sample TANGO error record. -/
def sampleError : ErrorRecord :=
  { reason := "API_AttrNotAllowed", desc := "write failed", severity := "ERR",
    origin := "DeviceProxy.write_read_attribute" }

/-- Sample read-back result for an attribute. -/
def sampleDevAttr (a : String) : DevAttr :=
  { name := a, value := .raw "42", quality := "ATTR_VALID", time := 7 }

/-- Concrete device handle: the writability class and the failure
behavior depend only on the attribute name ("ro" and "rofail" are not
write-read capable; "rwfail" fails the combined call; "rofail" fails
the separate read-back). -/
def sampleDevice : DeviceModel Unit where
  get_attribute_config := fun _ a =>
    .ok ((), { name := a, data_type := ⟨2⟩,
               writable := if a = "ro" ∨ a = "rofail" then .READ else .READ_WRITE })
  get_attribute_config_list := fun _ as =>
    .ok ((), as.map (fun a =>
      ({ name := a, data_type := ⟨2⟩,
         writable := if a = "ro" ∨ a = "rofail" then .READ else .READ_WRITE } : AttrInfo)))
  write_read_attribute := fun _ a _ =>
    if a = "rwfail" then .error (.devFailed [sampleError])
    else .ok ((), sampleDevAttr a)
  write_attribute := fun _ _ _ => .ok ()
  read_attribute := fun _ a =>
    if a = "rofail" then .error (.devFailed [sampleError])
    else .ok ((), sampleDevAttr a)

/-- Concrete coercion function: fails on the string "bad" only. -/
def sampleStr2obj : Str2Obj := fun s _ =>
  if s = "bad" then .error (.valueError "bad literal") else .ok (.raw s)

/-!
Helper lemmas.
-/

theorem ofDigitsRev_natDigitsRev (fuel n : Nat) (h : n ≤ fuel) :
    ofDigitsRev (natDigitsRev fuel n) = n := by
  induction fuel generalizing n with
  | zero => interval_cases n; rfl
  | succ fuel ih =>
    match n with
    | 0 => rfl
    | n + 1 =>
      have hdiv : (n + 1) / 10 ≤ fuel := by
        have : (n + 1) / 10 < n + 1 := Nat.div_lt_self (Nat.succ_pos n) (by omega)
        omega
      simp only [natDigitsRev, ofDigitsRev, ih _ hdiv]
      omega

theorem natDigitsRev_lt_ten (fuel n : Nat) : ∀ d ∈ natDigitsRev fuel n, d < 10 := by
  induction fuel generalizing n with
  | zero => simp [natDigitsRev]
  | succ fuel ih =>
    match n with
    | 0 => simp [natDigitsRev]
    | n + 1 =>
      simp only [natDigitsRev, List.mem_cons]
      rintro d (rfl | hd)
      · exact Nat.mod_lt _ (by omega)
      · exact ih _ _ hd

theorem natDigitsRev_ne_nil (fuel n : Nat) (h : 0 < n) (hf : 0 < fuel) :
    natDigitsRev fuel n ≠ [] := by
  match fuel, n with
  | fuel + 1, n + 1 => simp [natDigitsRev]

theorem toNat_digitChar (d : Nat) (h : d < 10) : (Char.ofNat (48 + d)).toNat = 48 + d := by
  interval_cases d <;> decide

theorem isDigitChar_digitChar (d : Nat) (h : d < 10) : isDigitChar (Char.ofNat (48 + d)) = true := by
  interval_cases d <;> decide

theorem foldl_digits_reverse (ds : List Nat) (hds : ∀ d ∈ ds, d < 10) (a : Nat) :
    ((ds.map fun d => Char.ofNat (48 + d)).reverse).foldl
      (fun a c => a * 10 + (c.toNat - 48)) a = a * 10 ^ ds.length + ofDigitsRev ds := by
  induction ds generalizing a with
  | nil => simp [ofDigitsRev]
  | cons d ds ih =>
    have hd : d < 10 := hds d (List.mem_cons_self d ds)
    have hds' : ∀ x ∈ ds, x < 10 := fun x hx => hds x (List.mem_cons_of_mem d hx)
    simp only [List.map_cons, List.reverse_cons, List.foldl_append, List.foldl_cons,
      List.foldl_nil, ih hds', ofDigitsRev, List.length_cons]
    rw [toNat_digitChar d hd]
    ring_nf
    omega

/-- Round trip of the Python `str` and `int` models on nonnegative
integers: `int(str(n)) = n`. -/
theorem pyInt?_pyStr (n : Nat) : pyInt? (pyStr n) = some n := by
  by_cases h0 : n = 0
  · subst h0; decide
  · have hpos : 0 < n := Nat.pos_of_ne_zero h0
    have hne : natDigitsRev n n ≠ [] := natDigitsRev_ne_nil n n hpos hpos
    have hlt := natDigitsRev_lt_ten n n
    simp only [pyStr, if_neg h0, pyInt?]
    have hnonempty : (((natDigitsRev n n).map fun d => Char.ofNat (48 + d)).reverse).isEmpty = false := by
      rw [List.isEmpty_eq_false]
      simp only [ne_eq, List.reverse_eq_nil_iff, List.map_eq_nil_iff]
      exact hne
    have hall : (((natDigitsRev n n).map fun d => Char.ofNat (48 + d)).reverse).all isDigitChar = true := by
      rw [List.all_eq_true]
      intro c hc
      rw [List.mem_reverse, List.mem_map] at hc
      obtain ⟨d, hd, rfl⟩ := hc
      exact isDigitChar_digitChar d (hlt d hd)
    rw [hnonempty, hall]
    simp only [Bool.not_false, Bool.true_and, if_pos]
    rw [foldl_digits_reverse _ hlt 0]
    simp [ofDigitsRev_natDigitsRev n n (Nat.le_refl n)]

theorem lookup_eq_none_iff [BEq α] [LawfulBEq α] (l : List (α × β)) (k : α) :
    l.lookup k = none ↔ k ∉ l.map Prod.fst := by
  induction l with
  | nil => simp [List.lookup]
  | cons p l ih =>
    obtain ⟨a, b⟩ := p
    rw [List.lookup_cons]
    by_cases h : k = a
    · subst h; simp
    · have hb : (k == a) = false := beq_eq_false_iff_ne.mpr h
      simp [hb, ih, h]

theorem lookup_isSome_iff [BEq α] [LawfulBEq α] (l : List (α × β)) (k : α) :
    (l.lookup k).isSome ↔ k ∈ l.map Prod.fst := by
  rw [← Decidable.not_iff_not, ← lookup_eq_none_iff l k]
  cases l.lookup k <;> simp

theorem TTLDict.get?_none_mono [BEq κ] (d : TTLDict κ ν) (k : κ) (t₁ t₂ : Nat)
    (h : d.get? t₁ k = none) (h12 : t₁ ≤ t₂) : d.get? t₂ k = none := by
  unfold TTLDict.get? at h ⊢
  cases hl : d.entries.lookup k with
  | none => rfl
  | some vt =>
    obtain ⟨v, t⟩ := vt
    rw [hl] at h
    dsimp only at h ⊢
    by_cases hc : t₁ < t + d.default_ttl
    · rw [if_pos hc] at h; exact absurd h (by simp)
    · rw [if_neg (by omega : ¬ t₂ < t + d.default_ttl)]

theorem decodeLoop_encode (P : List (String × List String)) :
    ∀ (pre : List String),
      decodeLoop (pre ++ P.flatMap fun pv => [pv.1, pyStr pv.2.length] ++ pv.2)
          P.length pre.length
        = some (P.map fun pv => { name := pv.1, values := pv.2 }) := by
  induction P with
  | nil => intro pre; rfl
  | cons pv P ih =>
    intro pre
    obtain ⟨name, vs⟩ := pv
    have hflat : (((name, vs) :: P).flatMap fun pv => [pv.1, pyStr pv.2.length] ++ pv.2)
        = name :: pyStr vs.length ::
            (vs ++ P.flatMap fun pv => [pv.1, pyStr pv.2.length] ++ pv.2) := by
      simp [List.flatMap_cons]
    rw [List.length_cons, hflat, List.map_cons]
    have h1 : (pre ++ name :: pyStr vs.length ::
        (vs ++ P.flatMap fun pv => [pv.1, pyStr pv.2.length] ++ pv.2))[pre.length]?
        = some name := by
      rw [List.getElem?_append_right (Nat.le_refl _)]
      simp
    have h2 : (pre ++ name :: pyStr vs.length ::
        (vs ++ P.flatMap fun pv => [pv.1, pyStr pv.2.length] ++ pv.2))[pre.length + 1]?
        = some (pyStr vs.length) := by
      rw [List.getElem?_append_right (by omega : pre.length ≤ pre.length + 1)]
      have he : pre.length + 1 - pre.length = 1 := by omega
      rw [he]
      simp
    have h4 : pySlice (pre ++ name :: pyStr vs.length ::
        (vs ++ P.flatMap fun pv => [pv.1, pyStr pv.2.length] ++ pv.2))
        (pre.length + 2) (pre.length + 2 + vs.length) = vs := by
      rw [pySlice]
      have hform : pre ++ name :: pyStr vs.length ::
          (vs ++ P.flatMap fun pv => [pv.1, pyStr pv.2.length] ++ pv.2)
          = (pre ++ [name, pyStr vs.length]) ++
              (vs ++ P.flatMap fun pv => [pv.1, pyStr pv.2.length] ++ pv.2) := by
        simp
      have hl2 : (pre ++ [name, pyStr vs.length]).length = pre.length + 2 := by simp
      rw [hform, ← hl2, List.drop_left]
      have he : pre.length + 2 + vs.length - (pre.length + 2) = vs.length := by omega
      rw [hl2, he, List.take_left]
    have h5 : decodeLoop (pre ++ name :: pyStr vs.length ::
        (vs ++ P.flatMap fun pv => [pv.1, pyStr pv.2.length] ++ pv.2))
        P.length (pre.length + 2 + vs.length)
        = some (P.map fun pv => { name := pv.1, values := pv.2 }) := by
      have hform : pre ++ name :: pyStr vs.length ::
          (vs ++ P.flatMap fun pv => [pv.1, pyStr pv.2.length] ++ pv.2)
          = (pre ++ [name, pyStr vs.length] ++ vs) ++
              P.flatMap fun pv => [pv.1, pyStr pv.2.length] ++ pv.2 := by
        simp
      have hl3 : (pre ++ [name, pyStr vs.length] ++ vs).length
          = pre.length + 2 + vs.length := by simp; omega
      rw [hform, ← hl3]
      exact ih (pre ++ [name, pyStr vs.length] ++ vs)
    simp only [decodeLoop, h1, h2, pyInt?_pyStr, h4, h5]

theorem decodeLoop_short_none (data : List String) (n pos : Nat)
    (h : data.length ≤ pos + 1) : decodeLoop data (n + 1) pos = none := by
  rw [decodeLoop]
  cases hp : data[pos]? with
  | none => rfl
  | some prop =>
    have hlt : pos < data.length := by
      by_contra hc
      rw [List.getElem?_eq_none (by omega)] at hp
      exact Option.noConfusion hp
    have hp1 : data[pos + 1]? = none := List.getElem?_eq_none (by omega)
    rw [hp1]

theorem decodeLoop_values_spec (data : List String) :
    ∀ (n pos : Nat) (props : List PropRec), decodeLoop data n pos = some props →
      ∀ r ∈ props, ∃ p c cs, data[p]? = some r.name ∧ data[p + 1]? = some cs ∧
        pyInt? cs = some c ∧ r.values = pySlice data (p + 2) (p + 2 + c) ∧
        r.values.length ≤ c := by
  intro n
  induction n with
  | zero =>
    intro pos props h r hr
    rw [decodeLoop] at h
    cases h
    cases hr
  | succ n ih =>
    intro pos props h r hr
    rw [decodeLoop] at h
    cases hp : data[pos]? with
    | none => rw [hp] at h; exact Option.noConfusion h
    | some prop =>
      rw [hp] at h
      dsimp only at h
      cases hp1 : data[pos + 1]? with
      | none => rw [hp1] at h; exact Option.noConfusion h
      | some lenStr =>
        rw [hp1] at h
        dsimp only at h
        cases hint : pyInt? lenStr with
        | none => rw [hint] at h; exact Option.noConfusion h
        | some length =>
          rw [hint] at h
          dsimp only at h
          cases hrec : decodeLoop data n (pos + 2 + length) with
          | none => rw [hrec] at h; exact Option.noConfusion h
          | some rest =>
            rw [hrec] at h
            injection h with h
            subst h
            rw [List.mem_cons] at hr
            rcases hr with rfl | hr
            · refine ⟨pos, length, lenStr, hp, hp1, hint, rfl, ?_⟩
              rw [pySlice, List.length_take]
              omega
            · exact ih (pos + 2 + length) rest hrec r hr

theorem acquireAll_keys (names : List String) :
    ∀ (pool : List (String × DeviceProxy)),
      (∀ n ∈ names, n ∉ poolKeys pool) → names.Nodup →
      pool.length + names.length ≤ MAX_PROXIES →
      poolKeys (acquireAll pool names) = poolKeys pool ++ names := by
  induction names with
  | nil => intro pool _ _ _; simp [acquireAll]
  | cons n names ih =>
    intro pool hmem hnodup hlen
    have hn : n ∉ poolKeys pool := hmem n (List.mem_cons_self n names)
    have hlookup : pool.lookup n = none := (lookup_eq_none_iff pool n).mpr hn
    have hne : pool.length ≠ MAX_PROXIES := by
      simp only [List.length_cons, MAX_PROXIES] at hlen ⊢
      omega
    rw [acquireAll]
    have hstep : (get_device_proxy pool n).2 = pool ++ [(n, ⟨n⟩)] := by
      rw [get_device_proxy, hlookup]
      dsimp only
      rw [if_neg hne]
    rw [hstep]
    have hkeys : poolKeys (pool ++ [(n, ⟨n⟩)]) = poolKeys pool ++ [n] := by
      simp [poolKeys]
    have hmem2 : ∀ m ∈ names, m ∉ poolKeys (pool ++ [(n, (⟨n⟩ : DeviceProxy))]) := by
      intro m hm
      simp only [hkeys, List.mem_append, List.mem_singleton]
      rintro (hmp | rfl)
      · exact hmem m (List.mem_cons_of_mem n hm) hmp
      · exact (List.nodup_cons.mp hnodup).1 hm
    have hlen2 : (pool ++ [(n, (⟨n⟩ : DeviceProxy))]).length + names.length ≤ MAX_PROXIES := by
      simp only [List.length_append, List.length_cons, List.length_nil] at hlen ⊢
      omega
    rw [ih _ hmem2 (List.nodup_cons.mp hnodup).2 hlen2, hkeys]
    simp

/-- C2: a sequence of `N ≤ MAX_PROXIES` distinct identifiers acquired
through the pool leaves all of them retrievable with no eviction; one
further distinct acquisition appends it and evicts exactly the oldest
entry precisely when the pool is at capacity; the pool size never
exceeds `MAX_PROXIES`. -/
theorem connection_pool_fifo_bounded
    (names : List String) (x n m y : String) (q : List (String × DeviceProxy))
    (hnodup : names.Nodup) (hlen : names.length ≤ MAX_PROXIES) (hx : x ∉ names)
    (hn : n ∈ names)
    (hm : m ∈ (if names.length = MAX_PROXIES then names.tail else names))
    (hq : q.length ≤ MAX_PROXIES) :
    ((acquireAll [] names).lookup n).isSome = true ∧
    (acquireAll [] names).length = names.length ∧
    poolKeys (get_device_proxy (acquireAll [] names) x).2
      = (if names.length = MAX_PROXIES then names.tail else names) ++ [x] ∧
    (((get_device_proxy (acquireAll [] names) x).2).lookup m).isSome = true ∧
    ((get_device_proxy (acquireAll [] names) x).2).length ≤ MAX_PROXIES ∧
    ((get_device_proxy q y).2).length ≤ MAX_PROXIES := by
  have hkeys : poolKeys (acquireAll [] names) = names := by
    have h := acquireAll_keys names [] (by simp [poolKeys]) hnodup (by simpa using hlen)
    simpa [poolKeys] using h
  have hlen1 : (acquireAll [] names).length = names.length := by
    have h : (poolKeys (acquireAll [] names)).length = names.length := by rw [hkeys]
    simpa [poolKeys] using h
  have hlx : (acquireAll [] names).lookup x = none := by
    rw [lookup_eq_none_iff]
    show x ∉ poolKeys (acquireAll [] names)
    rw [hkeys]; exact hx
  have hkeys2 : poolKeys (get_device_proxy (acquireAll [] names) x).2
      = (if names.length = MAX_PROXIES then names.tail else names) ++ [x] := by
    rw [get_device_proxy, hlx]
    dsimp only
    by_cases hcap : (acquireAll [] names).length = MAX_PROXIES
    · rw [if_pos hcap, if_pos (hlen1 ▸ hcap)]
      simp only [poolKeys, List.map_append, List.map_tail]
      rw [show (acquireAll [] names).map Prod.fst = poolKeys (acquireAll [] names) from rfl,
        hkeys]
      rfl
    · rw [if_neg hcap, if_neg (fun h => hcap (by omega))]
      simp only [poolKeys, List.map_append]
      rw [show (acquireAll [] names).map Prod.fst = poolKeys (acquireAll [] names) from rfl,
        hkeys]
      rfl
  refine ⟨?_, hlen1, hkeys2, ?_, ?_, ?_⟩
  · rw [lookup_isSome_iff]
    show n ∈ poolKeys (acquireAll [] names)
    rw [hkeys]; exact hn
  · rw [lookup_isSome_iff]
    show m ∈ poolKeys (get_device_proxy (acquireAll [] names) x).2
    rw [hkeys2, List.mem_append]
    exact Or.inl hm
  · have h : ((get_device_proxy (acquireAll [] names) x).2).length
        = (poolKeys (get_device_proxy (acquireAll [] names) x).2).length := by
      simp [poolKeys]
    rw [h, hkeys2, List.length_append]
    by_cases hcap : names.length = MAX_PROXIES
    · rw [if_pos hcap]
      simp only [List.length_tail, List.length_singleton, MAX_PROXIES] at *
      omega
    · rw [if_neg hcap]
      simp only [List.length_singleton, MAX_PROXIES] at *
      omega
  · rw [get_device_proxy]
    cases hly : q.lookup y with
    | some p => exact hq
    | none =>
      dsimp only
      by_cases hcap : q.length = MAX_PROXIES
      · rw [if_pos hcap]
        simp only [List.length_append, List.length_tail, List.length_singleton,
          MAX_PROXIES] at *
        omega
      · rw [if_neg hcap]
        simp only [List.length_append, List.length_singleton, MAX_PROXIES] at *
        omega

/-- C6: for every ttl > 0 and call signature, two fetches within ttl
seconds of the first computation invoke the inner call exactly once and
return the same value; a further fetch after the ttl has elapsed
invokes it a second time. -/
theorem ttl_cache_hit_and_expiry (κ ν : Type) [BEq κ] [LawfulBEq κ]
    (ttl : Nat) (f : κ → ν) (args : κ) (t₁ t₂ t₃ : Nat)
    (httl : 0 < ttl) (h12 : t₁ ≤ t₂) (h2 : t₂ < t₁ + ttl) (h3 : t₁ + ttl ≤ t₃) :
    ((⟨⟨ttl, []⟩⟩ : CachedMethod κ ν Unit).runCalls (fun a => .ok (f a)) args [t₁, t₂]).2.2
        = 1 ∧
    ((⟨⟨ttl, []⟩⟩ : CachedMethod κ ν Unit).runCalls (fun a => .ok (f a)) args [t₁, t₂]).1
        = [.ok (f args), .ok (f args)] ∧
    ((⟨⟨ttl, []⟩⟩ : CachedMethod κ ν Unit).runCalls (fun a => .ok (f a)) args [t₁, t₂, t₃]).2.2
        = 2 := by
  have hmiss : (TTLDict.mk (κ := κ) (ν := ν) ttl []).get? t₁ args = none := by
    simp [TTLDict.get?, List.lookup]
  have hc1 : (⟨⟨ttl, []⟩⟩ : CachedMethod κ ν Unit).call (fun a => .ok (f a)) t₁ args
      = (.ok (f args), ⟨⟨ttl, [(args, f args, t₁)]⟩⟩, true) := by
    simp [CachedMethod.call, hmiss, TTLDict.set]
  have hhit : (TTLDict.mk (κ := κ) (ν := ν) ttl [(args, f args, t₁)]).get? t₂ args
      = some (f args) := by
    simp [TTLDict.get?, List.lookup_cons, h2]
  have hc2 : (⟨⟨ttl, [(args, f args, t₁)]⟩⟩ : CachedMethod κ ν Unit).call
      (fun a => .ok (f a)) t₂ args
      = (.ok (f args), ⟨⟨ttl, [(args, f args, t₁)]⟩⟩, false) := by
    simp [CachedMethod.call, hhit]
  have hmiss3 : (TTLDict.mk (κ := κ) (ν := ν) ttl [(args, f args, t₁)]).get? t₃ args
      = none := by
    simp only [TTLDict.get?, List.lookup_cons, beq_self_eq_true]
    rw [if_neg (by omega)]
  have hc3 : (⟨⟨ttl, [(args, f args, t₁)]⟩⟩ : CachedMethod κ ν Unit).call
      (fun a => .ok (f a)) t₃ args
      = (.ok (f args), ⟨⟨ttl, [(args, f args, t₃), (args, f args, t₁)]⟩⟩, true) := by
    simp [CachedMethod.call, hmiss3, TTLDict.set]
  refine ⟨?_, ?_, ?_⟩ <;>
    simp [CachedMethod.runCalls, hc1, hc2, hc3]

/-- C7: when the inner call fails on a cache miss, the failure
propagates, the cache state is unchanged, and the next fetch for the
same signature invokes the inner call again. -/
theorem ttl_cache_failure_not_cached (κ ν ε : Type) [BEq κ]
    (cm : CachedMethod κ ν ε) (method : κ → Except ε ν) (args : κ) (t₁ t₂ : Nat) (e : ε)
    (hmiss : cm.cache.get? t₁ args = none) (h12 : t₁ ≤ t₂)
    (hfail : method args = .error e) :
    (cm.call method t₁ args).1 = .error e ∧
    (cm.call method t₁ args).2.1 = cm ∧
    (cm.call method t₁ args).2.2 = true ∧
    (((cm.call method t₁ args).2.1).call method t₂ args).2.2 = true := by
  have h1 : cm.call method t₁ args = (.error e, cm, true) := by
    simp [CachedMethod.call, hmiss, hfail]
  have hmiss2 : cm.cache.get? t₂ args = none :=
    TTLDict.get?_none_mono cm.cache args t₁ t₂ hmiss h12
  have h2 : cm.call method t₂ args = (.error e, cm, true) := by
    simp [CachedMethod.call, hmiss2, hfail]
  rw [h1]
  exact ⟨rfl, rfl, rfl, by rw [h2]⟩

/-- C1 (evaluation at the failing input): the directory read queries the
routes use are named `DbGet...`, which fails the `startswith("Get")`
test of `CachedDatabase.__getattr__`, so five repeats of
`DbGetDeviceWideList("*")` within the ttl window invoke the remote
database five times, returning five identical values, where the claim
(and the class docstring) call for exactly one invocation; a literally
`"Get"`-prefixed name is invoked exactly once. -/
theorem dbGet_route_queries_bypass_cache :
    ((CachedDatabase.runCalls ⟨10, []⟩ (fun _ _ => (.ok "devlist" : Except Unit String))
        "DbGetDeviceWideList" "*" [0, 1, 2, 3, 4]).2.2 = 5 ∧
     (CachedDatabase.runCalls ⟨10, []⟩ (fun _ _ => (.ok "devlist" : Except Unit String))
        "DbGetDeviceWideList" "*" [0, 1, 2, 3, 4]).1
       = [.ok "devlist", .ok "devlist", .ok "devlist", .ok "devlist", .ok "devlist"]) ∧
    (CachedDatabase.runCalls ⟨10, []⟩ (fun _ _ => (.ok "devlist" : Except Unit String))
        "GetDeviceWideList" "*" [0, 1, 2, 3, 4]).2.2 = 1 := by
  exact ⟨⟨rfl, rfl⟩, rfl⟩

/-- C3: decoding the encoding of any property map for any device
reproduces the map exactly (same property names, each with the same
value sequence in the same order), and every record produced by a
successful decode carries exactly the declared slice of the input
array, never more than the declared value count. -/
theorem property_codec_roundtrip (device : String) (P : List (String × List String))
    (data : List String) (props : List PropRec) (r : PropRec)
    (hdec : decode_device_properties data = some props) (hr : r ∈ props) :
    decode_device_properties (encode_device_properties device P)
      = some (P.map fun pv => { name := pv.1, values := pv.2 }) ∧
    (∃ p c cs, data[p]? = some r.name ∧ data[p + 1]? = some cs ∧ pyInt? cs = some c ∧
      r.values = pySlice data (p + 2) (p + 2 + c) ∧ r.values.length ≤ c) := by
  constructor
  · have h2 := decodeLoop_encode P [device, pyStr P.length]
    have hl : ([device, pyStr P.length] : List String).length = 2 := rfl
    rw [hl] at h2
    show decode_device_properties ([device, pyStr P.length] ++
        P.flatMap fun pv => [pv.1, pyStr pv.2.length] ++ pv.2) = _
    rw [decode_device_properties]
    have h1 : (([device, pyStr P.length] ++
        P.flatMap fun pv => [pv.1, pyStr pv.2.length] ++ pv.2))[1]? = some (pyStr P.length) := by
      simp
    rw [h1]
    dsimp only
    rw [pyInt?_pyStr]
    exact h2
  · rw [decode_device_properties] at hdec
    cases h1 : data[1]? with
    | none => rw [h1] at hdec; exact Option.noConfusion hdec
    | some nStr =>
      rw [h1] at hdec
      dsimp only at hdec
      cases h2 : pyInt? nStr with
      | none => rw [h2] at hdec; exact Option.noConfusion hdec
      | some nn =>
        rw [h2] at hdec
        dsimp only at hdec
        exact decodeLoop_values_spec data nn 2 props hdec r hr

/-- C4 counterexample: a flat array declaring one property with two
values but carrying only one decodes without an error to a silently
truncated value list, refuting the fail-closed claim as stated. -/
theorem decode_short_value_array_truncates :
    decode_device_properties ["dev", "1", "P", "2", "a"]
      = some [{ name := "P", values := ["a"] }] := by decide

/-- C4 amended: a shortfall that strikes a property-name or value-count
position makes the decode loop fail (Python IndexError), while the
values of any record a successful decode returns are the slice of the
array actually present — at most the declared count, silently truncated
and never padded. -/
theorem decode_short_fail_or_truncate (data : List String) (n pos : Nat)
    (props : List PropRec) (r : PropRec)
    (hshort : data.length ≤ pos + 1)
    (hdec : decode_device_properties data = some props) (hr : r ∈ props) :
    decodeLoop data (n + 1) pos = none ∧
    (∃ p c cs, data[p]? = some r.name ∧ data[p + 1]? = some cs ∧ pyInt? cs = some c ∧
      r.values = pySlice data (p + 2) (p + 2 + c) ∧ r.values.length ≤ c) := by
  constructor
  · exact decodeLoop_short_none data n pos hshort
  · rw [decode_device_properties] at hdec
    cases h1 : data[1]? with
    | none => rw [h1] at hdec; exact Option.noConfusion hdec
    | some nStr =>
      rw [h1] at hdec
      dsimp only at hdec
      cases h2 : pyInt? nStr with
      | none => rw [h2] at hdec; exact Option.noConfusion hdec
      | some nn =>
        rw [h2] at hdec
        dsimp only at hdec
        exact decodeLoop_values_spec data nn 2 props hdec r hr

/-- C9 counterexample: decoding the identifier-stripped tail of the
scenario sequence fails (the decoder reads its count at index 1, which
here holds "Description", so Python's `int` raises), refuting the
claim's decode direction as stated. -/
theorem decode_stripped_tail_fails :
    decode_device_properties
        ["2", "Description", "1", "a calibrated sensor", "Limits", "2", "0", "100"]
      = none := by decide

/-- C9 amended: the scenario map encodes to exactly the claimed flat
sequence, and decoding that full sequence (identifier retained at
position 0) reproduces both properties exactly. -/
theorem encode_scenario_decode_full :
    encode_device_properties "a/b/c"
        [("Description", ["a calibrated sensor"]), ("Limits", ["0", "100"])]
      = ["a/b/c", "2", "Description", "1", "a calibrated sensor", "Limits", "2", "0", "100"] ∧
    decode_device_properties
        ["a/b/c", "2", "Description", "1", "a calibrated sensor", "Limits", "2", "0", "100"]
      = some [{ name := "Description", values := ["a calibrated sensor"] },
              { name := "Limits", values := ["0", "100"] }] := by decide

/-- C10: a PUT with an absent or empty "value" parameter returns the
empty body and issues no remote device call at all (no coercion, no
write, no read) and no Error Envelope, given the device handle was
obtained. -/
theorem put_empty_value_is_noop (σ : Type) (dev : DeviceModel σ) (str2obj : Str2Obj)
    (s : σ) (now : Nat) (attr_name : String) (value_arg : Option String)
    (hempty : value_arg = none ∨ value_arg = some "") :
    get_device_attribute_route dev str2obj (.ok s) now true attr_name value_arg
      = ([], .ok .empty) := by
  rcases hempty with rfl | rfl
  · rfl
  · rfl

/-- C5: in both attribute PUT routes, a writability class of READ_WRITE
or READ_WITH_WRITE yields the single combined write-read remote call,
any other class a separate write call strictly before a separate read
call, and the value in the response is built from the read-back result
the remote reported, not from the caller-supplied value. -/
theorem attribute_write_read_back_protocol (σ : Type) (dev : DeviceModel σ)
    (str2obj : Str2Obj) (now : Nat)
    (sa s₁a s₂a : σ) (attrA svA : String) (infoA : AttrInfo) (vA : TangoValue) (daA : DevAttr)
    (sb s₁b s₂b s₃b : σ) (attrB svB : String) (infoB : AttrInfo) (vB : TangoValue) (daB : DevAttr)
    (args : List (String × String)) (rest rest₂ : List AttrInfo)
    (sc s₂c : σ) (svC : String) (infoC : AttrInfo) (vC : TangoValue) (daC : DevAttr)
    (sd s₂d s₃d : σ) (svD : String) (infoD : AttrInfo) (vD : TangoValue) (daD : DevAttr)
    (hconfA : dev.get_attribute_config sa attrA = .ok (s₁a, infoA))
    (hcoA : str2obj svA infoA.data_type = .ok vA)
    (hsvA : svA ≠ "")
    (hwpA : writable_permits_write_read infoA.writable = true)
    (hwrA : dev.write_read_attribute s₁a attrA vA = .ok (s₂a, daA))
    (hconfB : dev.get_attribute_config sb attrB = .ok (s₁b, infoB))
    (hcoB : str2obj svB infoB.data_type = .ok vB)
    (hsvB : svB ≠ "")
    (hwpB : writable_permits_write_read infoB.writable = false)
    (hwB : dev.write_attribute s₁b attrB vB = .ok s₂b)
    (hrB : dev.read_attribute s₂b attrB = .ok (s₃b, daB))
    (hlkC : args.lookup infoC.name = some svC)
    (hcoC : str2obj svC infoC.data_type = .ok vC)
    (hwpC : writable_permits_write_read infoC.writable = true)
    (hwrC : dev.write_read_attribute sc infoC.name vC = .ok (s₂c, daC))
    (hlkD : args.lookup infoD.name = some svD)
    (hcoD : str2obj svD infoD.data_type = .ok vD)
    (hwpD : writable_permits_write_read infoD.writable = false)
    (hwD : dev.write_attribute sd infoD.name vD = .ok s₂d)
    (hrD : dev.read_attribute s₂d infoD.name = .ok (s₃d, daD)) :
    get_device_attribute_route dev str2obj (.ok sa) now true attrA (some svA)
      = ([.getConfig attrA, .writeRead attrA vA],
         .ok (.result { name := daA.name, value := render_attr_value daA.value,
                        quality := daA.quality, timestamp := daA.time })) ∧
    get_device_attribute_route dev str2obj (.ok sb) now true attrB (some svB)
      = ([.getConfig attrB, .write attrB vB, .read attrB],
         .ok (.result { name := daB.name, value := render_attr_value daB.value,
                        quality := daB.quality, timestamp := daB.time })) ∧
    put_attributes_loop dev str2obj args sc (infoC :: rest)
      = (.writeRead infoC.name vC :: (put_attributes_loop dev str2obj args s₂c rest).1,
         (put_attributes_loop dev str2obj args s₂c rest).2.map
           fun results => mk_put_result infoC.name infoC daC :: results) ∧
    (mk_put_result infoC.name infoC daC).value = daC.value ∧
    put_attributes_loop dev str2obj args sd (infoD :: rest₂)
      = (.write infoD.name vD :: .read infoD.name ::
           (put_attributes_loop dev str2obj args s₃d rest₂).1,
         (put_attributes_loop dev str2obj args s₃d rest₂).2.map
           fun results => mk_put_result infoD.name infoD daD :: results) ∧
    (mk_put_result infoD.name infoD daD).value = daD.value := by
  refine ⟨?_, ?_, ?_, rfl, ?_, rfl⟩
  · rw [get_device_attribute_route]
    dsimp only
    rw [if_neg hsvA, put_attribute_body, hconfA]
    dsimp only
    rw [hcoA]
    dsimp only
    rw [if_pos hwpA, hwrA]
    rfl
  · rw [get_device_attribute_route]
    dsimp only
    rw [if_neg hsvB, put_attribute_body, hconfB]
    dsimp only
    rw [hcoB]
    dsimp only
    have hwpB2 : ¬ (writable_permits_write_read infoB.writable = true) := by
      simp [hwpB]
    rw [if_neg hwpB2, hwB]
    dsimp only
    rw [hrB]
    rfl
  · rw [put_attributes_loop, hlkC]
    dsimp only
    rw [hcoC]
    dsimp only
    rw [if_pos hwpC, hwrC]
  · rw [put_attributes_loop, hlkD]
    dsimp only
    rw [hcoD]
    dsimp only
    have hwpD2 : ¬ (writable_permits_write_read infoD.writable = true) := by
      simp [hwpD]
    rw [if_neg hwpD2, hwD]
    dsimp only
    rw [hrD]

/-- C8 counterexample: a remote failure of the combined write-read call
escapes the `get_device_attribute` handler as an uncaught exception
(`Except.error`), not as the Error Envelope the claim requires. -/
theorem write_failure_escapes_unenveloped :
    get_device_attribute_route sampleDevice sampleStr2obj (.ok ()) 0 true "rwfail" (some "1")
      = ([.getConfig "rwfail", .writeRead "rwfail" (.raw "1")],
         .error (.devFailed [sampleError])) := by rfl

/-- C8 amended: only a failure of `get_device_proxy` is returned as the
Error Envelope; failures during coercion, the write call, or the
read-back call propagate out of the handler uncaught — in every case the
caller receives the failure and never a value, so no partial success is
reported. -/
theorem attribute_failure_propagation (σ : Type) (dev : DeviceModel σ)
    (str2obj : Str2Obj) (now : Nat) (errs : List ErrorRecord) (is_put : Bool)
    (attrZ : String) (value_arg : Option String)
    (sa s₁a : σ) (attrA svA : String) (infoA : AttrInfo) (eA : PyErr)
    (sb s₁b : σ) (attrB svB : String) (infoB : AttrInfo) (vB : TangoValue) (eB : PyErr)
    (sc s₁c s₂c : σ) (attrC svC : String) (infoC : AttrInfo) (vC : TangoValue) (eC : PyErr)
    (hconfA : dev.get_attribute_config sa attrA = .ok (s₁a, infoA))
    (hcoA : str2obj svA infoA.data_type = .error eA)
    (hsvA : svA ≠ "")
    (hconfB : dev.get_attribute_config sb attrB = .ok (s₁b, infoB))
    (hcoB : str2obj svB infoB.data_type = .ok vB)
    (hsvB : svB ≠ "")
    (hwpB : writable_permits_write_read infoB.writable = true)
    (hwrB : dev.write_read_attribute s₁b attrB vB = .error eB)
    (hconfC : dev.get_attribute_config sc attrC = .ok (s₁c, infoC))
    (hcoC : str2obj svC infoC.data_type = .ok vC)
    (hsvC : svC ≠ "")
    (hwpC : writable_permits_write_read infoC.writable = false)
    (hwC : dev.write_attribute s₁c attrC vC = .ok s₂c)
    (hrC : dev.read_attribute s₂c attrC = .error eC) :
    get_device_attribute_route dev str2obj (.error errs) now is_put attrZ value_arg
      = ([], .ok (.envelope (make_error_response errs now))) ∧
    get_device_attribute_route dev str2obj (.ok sa) now true attrA (some svA)
      = ([.getConfig attrA], .error eA) ∧
    get_device_attribute_route dev str2obj (.ok sb) now true attrB (some svB)
      = ([.getConfig attrB, .writeRead attrB vB], .error eB) ∧
    get_device_attribute_route dev str2obj (.ok sc) now true attrC (some svC)
      = ([.getConfig attrC, .write attrC vC, .read attrC], .error eC) := by
  refine ⟨rfl, ?_, ?_, ?_⟩
  · rw [get_device_attribute_route]
    dsimp only
    rw [if_neg hsvA, put_attribute_body, hconfA]
    dsimp only
    rw [hcoA]
    rfl
  · rw [get_device_attribute_route]
    dsimp only
    rw [if_neg hsvB, put_attribute_body, hconfB]
    dsimp only
    rw [hcoB]
    dsimp only
    rw [if_pos hwpB, hwrB]
    rfl
  · rw [get_device_attribute_route]
    dsimp only
    rw [if_neg hsvC, put_attribute_body, hconfC]
    dsimp only
    rw [hcoC]
    dsimp only
    have hwpC2 : ¬ (writable_permits_write_read infoC.writable = true) := by
      simp [hwpC]
    rw [if_neg hwpC2, hwC]
    dsimp only
    rw [hrC]
    rfl

theorem connection_pool_fifo_bounded_witness :
    ((acquireAll [] ["a", "b"]).lookup "a").isSome = true ∧
    (acquireAll [] ["a", "b"]).length = (["a", "b"] : List String).length ∧
    poolKeys (get_device_proxy (acquireAll [] ["a", "b"]) "c").2
      = (if (["a", "b"] : List String).length = MAX_PROXIES
         then (["a", "b"] : List String).tail else ["a", "b"]) ++ ["c"] ∧
    (((get_device_proxy (acquireAll [] ["a", "b"]) "c").2).lookup "b").isSome = true ∧
    ((get_device_proxy (acquireAll [] ["a", "b"]) "c").2).length ≤ MAX_PROXIES ∧
    ((get_device_proxy ([] : List (String × DeviceProxy)) "d").2).length ≤ MAX_PROXIES :=
  connection_pool_fifo_bounded ["a", "b"] "c" "a" "b" "d" []
    (by decide) (by decide) (by decide) (by decide) (by decide) (by decide)

theorem property_codec_roundtrip_witness :
    decode_device_properties (encode_device_properties "a/b/c" [("p", ["x", "y"])])
      = some ([("p", ["x", "y"])].map fun pv => { name := pv.1, values := pv.2 }) ∧
    (∃ p c cs,
      (["dev", "1", "q", "2", "u", "v"] : List String)[p]?
          = some ({ name := "q", values := ["u", "v"] } : PropRec).name ∧
      (["dev", "1", "q", "2", "u", "v"] : List String)[p + 1]? = some cs ∧
      pyInt? cs = some c ∧
      ({ name := "q", values := ["u", "v"] } : PropRec).values
          = pySlice ["dev", "1", "q", "2", "u", "v"] (p + 2) (p + 2 + c) ∧
      ({ name := "q", values := ["u", "v"] } : PropRec).values.length ≤ c) :=
  property_codec_roundtrip "a/b/c" [("p", ["x", "y"])] ["dev", "1", "q", "2", "u", "v"]
    [{ name := "q", values := ["u", "v"] }] { name := "q", values := ["u", "v"] }
    (by decide) (by decide)

theorem decode_short_fail_or_truncate_witness :
    decodeLoop ["dev", "1", "P", "2", "a"] (0 + 1) 4 = none ∧
    (∃ p c cs,
      (["dev", "1", "P", "2", "a"] : List String)[p]?
          = some ({ name := "P", values := ["a"] } : PropRec).name ∧
      (["dev", "1", "P", "2", "a"] : List String)[p + 1]? = some cs ∧
      pyInt? cs = some c ∧
      ({ name := "P", values := ["a"] } : PropRec).values
          = pySlice ["dev", "1", "P", "2", "a"] (p + 2) (p + 2 + c) ∧
      ({ name := "P", values := ["a"] } : PropRec).values.length ≤ c) :=
  decode_short_fail_or_truncate ["dev", "1", "P", "2", "a"] 0 4
    [{ name := "P", values := ["a"] }] { name := "P", values := ["a"] }
    (by decide) (by decide) (by decide)

theorem ttl_cache_hit_and_expiry_witness :
    ((⟨⟨10, []⟩⟩ : CachedMethod Nat Nat Unit).runCalls (fun a => .ok (a * 2)) 7 [0, 5]).2.2
        = 1 ∧
    ((⟨⟨10, []⟩⟩ : CachedMethod Nat Nat Unit).runCalls (fun a => .ok (a * 2)) 7 [0, 5]).1
        = [.ok 14, .ok 14] ∧
    ((⟨⟨10, []⟩⟩ : CachedMethod Nat Nat Unit).runCalls (fun a => .ok (a * 2)) 7 [0, 5, 10]).2.2
        = 2 :=
  ttl_cache_hit_and_expiry Nat Nat 10 (fun n => n * 2) 7 0 5 10
    (by decide) (by decide) (by decide) (by decide)

theorem ttl_cache_failure_not_cached_witness :
    ((⟨⟨10, []⟩⟩ : CachedMethod Nat Nat String).call (fun _ => .error "boom") 0 3).1
        = .error "boom" ∧
    ((⟨⟨10, []⟩⟩ : CachedMethod Nat Nat String).call (fun _ => .error "boom") 0 3).2.1
        = (⟨⟨10, []⟩⟩ : CachedMethod Nat Nat String) ∧
    ((⟨⟨10, []⟩⟩ : CachedMethod Nat Nat String).call (fun _ => .error "boom") 0 3).2.2
        = true ∧
    ((((⟨⟨10, []⟩⟩ : CachedMethod Nat Nat String).call (fun _ => .error "boom") 0 3).2.1).call
        (fun _ => .error "boom") 1 3).2.2 = true :=
  ttl_cache_failure_not_cached Nat Nat String ⟨⟨10, []⟩⟩ (fun _ => .error "boom") 3 0 1 "boom"
    (by rfl) (by decide) (by rfl)

theorem put_empty_value_is_noop_witness :
    get_device_attribute_route sampleDevice sampleStr2obj (.ok ()) 0 true "rw" (some "")
      = ([], .ok .empty) :=
  put_empty_value_is_noop Unit sampleDevice sampleStr2obj () 0 "rw" (some "") (by decide)

theorem attribute_write_read_back_protocol_witness :
    get_device_attribute_route sampleDevice sampleStr2obj (.ok ()) 0 true "rw" (some "5")
      = ([.getConfig "rw", .writeRead "rw" (.raw "5")],
         .ok (.result { name := (sampleDevAttr "rw").name,
                        value := render_attr_value (sampleDevAttr "rw").value,
                        quality := (sampleDevAttr "rw").quality,
                        timestamp := (sampleDevAttr "rw").time })) ∧
    get_device_attribute_route sampleDevice sampleStr2obj (.ok ()) 0 true "ro" (some "5")
      = ([.getConfig "ro", .write "ro" (.raw "5"), .read "ro"],
         .ok (.result { name := (sampleDevAttr "ro").name,
                        value := render_attr_value (sampleDevAttr "ro").value,
                        quality := (sampleDevAttr "ro").quality,
                        timestamp := (sampleDevAttr "ro").time })) ∧
    put_attributes_loop sampleDevice sampleStr2obj [("rw", "5"), ("ro", "7")] ()
        [{ name := "rw", data_type := ⟨2⟩, writable := .READ_WRITE }]
      = (.writeRead "rw" (.raw "5")
           :: (put_attributes_loop sampleDevice sampleStr2obj [("rw", "5"), ("ro", "7")] () []).1,
         (put_attributes_loop sampleDevice sampleStr2obj [("rw", "5"), ("ro", "7")] () []).2.map
           fun results =>
             mk_put_result "rw" { name := "rw", data_type := ⟨2⟩, writable := .READ_WRITE }
               (sampleDevAttr "rw") :: results) ∧
    (mk_put_result "rw" { name := "rw", data_type := ⟨2⟩, writable := .READ_WRITE }
        (sampleDevAttr "rw")).value = (sampleDevAttr "rw").value ∧
    put_attributes_loop sampleDevice sampleStr2obj [("rw", "5"), ("ro", "7")] ()
        [{ name := "ro", data_type := ⟨2⟩, writable := .READ }]
      = (.write "ro" (.raw "7") :: .read "ro"
           :: (put_attributes_loop sampleDevice sampleStr2obj [("rw", "5"), ("ro", "7")] () []).1,
         (put_attributes_loop sampleDevice sampleStr2obj [("rw", "5"), ("ro", "7")] () []).2.map
           fun results =>
             mk_put_result "ro" { name := "ro", data_type := ⟨2⟩, writable := .READ }
               (sampleDevAttr "ro") :: results) ∧
    (mk_put_result "ro" { name := "ro", data_type := ⟨2⟩, writable := .READ }
        (sampleDevAttr "ro")).value = (sampleDevAttr "ro").value :=
  attribute_write_read_back_protocol Unit sampleDevice sampleStr2obj 0
    () () () "rw" "5" { name := "rw", data_type := ⟨2⟩, writable := .READ_WRITE }
    (.raw "5") (sampleDevAttr "rw")
    () () () () "ro" "5" { name := "ro", data_type := ⟨2⟩, writable := .READ }
    (.raw "5") (sampleDevAttr "ro")
    [("rw", "5"), ("ro", "7")] [] []
    () () "5" { name := "rw", data_type := ⟨2⟩, writable := .READ_WRITE }
    (.raw "5") (sampleDevAttr "rw")
    () () () "7" { name := "ro", data_type := ⟨2⟩, writable := .READ }
    (.raw "7") (sampleDevAttr "ro")
    rfl rfl (by decide) rfl rfl
    rfl rfl (by decide) rfl rfl rfl
    rfl rfl rfl rfl
    rfl rfl rfl rfl rfl

theorem attribute_failure_propagation_witness :
    get_device_attribute_route sampleDevice sampleStr2obj
        (.error [sampleError]) 3 true "x" (some "1")
      = ([], .ok (.envelope (make_error_response [sampleError] 3))) ∧
    get_device_attribute_route sampleDevice sampleStr2obj (.ok ()) 3 true "rw" (some "bad")
      = ([.getConfig "rw"], .error (.valueError "bad literal")) ∧
    get_device_attribute_route sampleDevice sampleStr2obj (.ok ()) 3 true "rwfail" (some "1")
      = ([.getConfig "rwfail", .writeRead "rwfail" (.raw "1")],
         .error (.devFailed [sampleError])) ∧
    get_device_attribute_route sampleDevice sampleStr2obj (.ok ()) 3 true "rofail" (some "1")
      = ([.getConfig "rofail", .write "rofail" (.raw "1"), .read "rofail"],
         .error (.devFailed [sampleError])) :=
  attribute_failure_propagation Unit sampleDevice sampleStr2obj 3 [sampleError] true "x"
    (some "1")
    () () "rw" "bad" { name := "rw", data_type := ⟨2⟩, writable := .READ_WRITE }
    (.valueError "bad literal")
    () () "rwfail" "1" { name := "rwfail", data_type := ⟨2⟩, writable := .READ_WRITE }
    (.raw "1") (.devFailed [sampleError])
    () () () "rofail" "1" { name := "rofail", data_type := ⟨2⟩, writable := .READ }
    (.raw "1") (.devFailed [sampleError])
    rfl rfl (by decide)
    rfl rfl (by decide) rfl rfl
    rfl rfl (by decide) rfl rfl rfl
